import Mathlib

/-!
Shallow embedding of `src/site-color.js` (module SiteColor).

Modelling conventions:
* A JavaScript number is an `Option ℚ`, where `none` stands for `NaN` and
  `some q` for the finite value `q`.  The library only ever produces finite
  decimal values, which rationals represent exactly.
* Arguments passed to the public methods are `JSVal`: either a number or a
  string, the two kinds of values the library and its documentation feed in.
* `parseInt` applied to a finite number goes through the decimal rendering of
  the number and truncates toward zero; this is modelled by `ratTrunc`.
* Channels, after a setter ran, are `null` or an integer, hence `Option ℤ`;
  the opacity is `null` or a float, hence `Option ℚ`.
* `ToNumber(null) = 0`, used when arithmetic meets an unset channel, is
  modelled by `Option.getD _ 0`.
* The luminance and contrast computations use real numbers with `Real.rpow`
  for `Math.pow(base, 2.4)`.
-/

/-- A JavaScript value fed to the SiteColor methods: a number (with `none`
standing for NaN) or a string. -/
inductive JSVal where
  | num : Option ℚ → JSVal
  | str : String → JSVal
deriving DecidableEq

/-- Character class of the regex `[0-9]` and of `parseInt` digits. -/
def isDigitCh (c : Char) : Bool := 48 ≤ c.toNat && c.toNat ≤ 57

/-- Character class of the regex `[0-9a-f]` with the `i` flag. -/
def isHexCh (c : Char) : Bool :=
  isDigitCh c || (97 ≤ c.toNat && c.toNat ≤ 102) || (65 ≤ c.toNat && c.toNat ≤ 70)

/-- Whitespace characters matched by `\s` and trimmed by `parseInt` and
`parseFloat` (ASCII part). -/
def wsCh (c : Char) : Bool :=
  c == ' ' || c == '\t' || c == '\n' || c == '\r' || c == '\x0b' || c == '\x0c'

/-- Value of a run of decimal digit characters, most significant first. -/
def digitsToNat (cs : List Char) : ℕ :=
  cs.foldl (fun a c => 10 * a + (c.toNat - 48)) 0

/-- Truncation of a rational toward zero, the effect of `parseInt` on the
decimal rendering of a finite number. -/
def ratTrunc (q : ℚ) : ℤ := if 0 ≤ q then ⌊q⌋ else ⌈q⌉

/-- Optional leading sign accepted by `parseInt` and `parseFloat`. -/
def parseSign : List Char → ℤ × List Char
  | '-' :: cs => (-1, cs)
  | '+' :: cs => (1, cs)
  | cs => (1, cs)

/-- Behaviour of `parseInt(s)` (radix 10) on a string: trim whitespace, read
an optional sign and a leading run of decimal digits; NaN when no digit.
The auto-radix 0x form of the builtin is not modelled; no call site of the
library feeds one, and the result is clamped either way. -/
def parseIntStr (s : String) : Option ℤ :=
  let p := parseSign (s.data.dropWhile wsCh)
  let ds := p.2.takeWhile isDigitCh
  if ds.isEmpty then none else some (p.1 * digitsToNat ds)

/-- Behaviour of `parseFloat(s)` on a string: trim whitespace, read an
optional sign, integer digits and an optional fractional part; NaN when no
digit was read at all.  Exponent forms are not modelled; the rgba alpha
capture, the only string call site, admits no exponent in 3 characters. -/
def parseFloatStr (s : String) : Option ℚ :=
  let p := parseSign (s.data.dropWhile wsCh)
  let ds := p.2.takeWhile isDigitCh
  let rest := p.2.drop ds.length
  let fs := match rest with
            | '.' :: r => r.takeWhile isDigitCh
            | _ => []
  if ds.isEmpty && fs.isEmpty then none
  else some ((p.1 : ℚ) * ((digitsToNat ds : ℚ) + (digitsToNat fs : ℚ) / (10 : ℚ) ^ fs.length))

/-- The expression `parseInt(x)` of the setters, on a JSVal. -/
def jsParseInt : JSVal → Option ℤ
  | JSVal.num none => none
  | JSVal.num (some q) => some (ratTrunc q)
  | JSVal.str s => parseIntStr s

/-- The expression `parseFloat(x)`, on a JSVal.  On a finite number the
string rendering parses back to the same value. -/
def jsParseFloat : JSVal → Option ℚ
  | JSVal.num none => none
  | JSVal.num (some q) => some q
  | JSVal.str s => parseFloatStr s

/-- Source helper `numberBound(num, min, max) = Math.min(Math.max(num, min), max)`
on finite numbers; callers thread NaN through `Option.map`, which matches the
NaN propagation of Math.min and Math.max. -/
def numberBound (q lo hi : ℚ) : ℚ := min (max q lo) hi

/-- State of a SiteColor object: the fields `r`, `g`, `b` and `opacity` of
the constructor, all initially null. -/
structure SiteColor where
  r : Option ℤ
  g : Option ℤ
  b : Option ℤ
  opacity : Option ℚ
deriving DecidableEq

/-- ToNumber coercion of a channel read in arithmetic: null becomes 0. -/
def jsChan (o : Option ℤ) : ℤ := o.getD 0

/-- ToNumber coercion of a channel, as a rational (for float products). -/
def jsChanQ (o : Option ℤ) : ℚ := (jsChan o : ℚ)

/-- Digit character used by `Number.prototype.toString(16)` (lowercase). -/
def hexDigitChar (n : ℕ) : Char :=
  if n < 10 then Char.ofNat (48 + n) else Char.ofNat (87 + n)

/-- Rendering loop of `Number.prototype.toString(16)` for a nonnegative
integer, with explicit fuel (any fuel at least the digit count is exact;
call sites use 32, far above the 7 digits the library produces). -/
def hexReprAux : ℕ → ℕ → List Char → List Char
  | 0, _, acc => acc
  | fuel + 1, n, acc =>
      if n = 0 then acc else hexReprAux fuel (n / 16) (hexDigitChar (n % 16) :: acc)

/-- Value of the hex digit character at the regex class `[0-9a-fA-F]`. -/
def hexDigitVal (c : Char) : ℕ :=
  if isDigitCh c then c.toNat - 48
  else if 97 ≤ c.toNat && c.toNat ≤ 102 then c.toNat - 87
  else if 65 ≤ c.toNat && c.toNat ≤ 70 then c.toNat - 55
  else 0

/-- Match of `HEX_REGEXP = /^#([0-9a-f]{3}|[0-9a-f]{6})$/i` returning the
captured digit group. -/
def hexMatch? (s : String) : Option (List Char) :=
  match s.data with
  | '#' :: rest =>
      if rest.all isHexCh && (rest.length == 3 || rest.length == 6) then some rest else none
  | _ => none

/-- Replacement through `SHORT_HEX_REGEXP`: duplicate each of the three
digits (the regex always matches a captured 3-digit group). -/
def expand3 : List Char → List Char
  | [a, b, d] => [a, a, b, b, d, d]
  | l => l

/-- The value `parseInt(res[i] + res[i+1], 16)` of two hex digit characters
of the matched group. -/
def hexPairAt (ds : List Char) (i : ℕ) : ℕ :=
  16 * hexDigitVal (ds.getD i '0') + hexDigitVal (ds.getD (i + 1) '0')

/-- Drop the `\s*` of the rgb and rgba regexes. -/
def dropWS (cs : List Char) : List Char := cs.dropWhile wsCh

/-- Case-insensitive literal at the front of the input (`rgb(`, `rgba(`). -/
def dropLitCI : List Char → List Char → Option (List Char)
  | [], cs => some cs
  | p :: ps, c :: cs => if p.toLower == c.toLower then dropLitCI ps cs else none
  | _ :: _, [] => none

/-- Capture `([0-9]{1,3})` followed by a non-digit: a run of one to three
decimal digits (a longer run cannot match, the next regex token accepts no
digit). -/
def numTok (cs : List Char) : Option (List Char × List Char) :=
  let ds := cs.takeWhile isDigitCh
  if ds.isEmpty || decide (3 < ds.length) then none else some (ds, cs.drop ds.length)

/-- Capture `([0-9.]{1,3})` of the rgba regex, same length discipline. -/
def alphaTok (cs : List Char) : Option (List Char × List Char) :=
  let ds := cs.takeWhile (fun c => isDigitCh c || c == '.')
  if ds.isEmpty || decide (3 < ds.length) then none else some (ds, cs.drop ds.length)

/-- The token `\s*,` between captures. -/
def commaTok (cs : List Char) : Option (List Char) :=
  match dropWS cs with
  | ',' :: rest => some rest
  | _ => none

/-- The closing `\s*\)$` of the rgb and rgba regexes. -/
def closeTok (cs : List Char) : Option Unit :=
  match dropWS cs with
  | [')'] => some ()
  | _ => none

/-- Match of `RGB_REGEXP` returning the three captured digit strings. -/
def rgbMatch? (s : String) : Option (String × String × String) := do
  let cs0 ← dropLitCI ("rgb(".data) s.data
  let (d1, cs1) ← numTok (dropWS cs0)
  let cs2 ← commaTok cs1
  let (d2, cs3) ← numTok (dropWS cs2)
  let cs4 ← commaTok cs3
  let (d3, cs5) ← numTok (dropWS cs4)
  let _ ← closeTok cs5
  some (String.mk d1, String.mk d2, String.mk d3)

/-- Match of `RGBA_REGEXP` returning the four captured strings. -/
def rgbaMatch? (s : String) : Option (String × String × String × String) := do
  let cs0 ← dropLitCI ("rgba(".data) s.data
  let (d1, cs1) ← numTok (dropWS cs0)
  let cs2 ← commaTok cs1
  let (d2, cs3) ← numTok (dropWS cs2)
  let cs4 ← commaTok cs3
  let (d3, cs5) ← numTok (dropWS cs4)
  let cs6 ← commaTok cs5
  let (d4, cs7) ← alphaTok (dropWS cs6)
  let _ ← closeTok cs7
  some (String.mk d1, String.mk d2, String.mk d3, String.mk d4)

/-- Decimal digits of the fractional part of a rational in `[0, 1)`, used by
the modelled number-to-string rendering (fuel bounded; the values this
library stores terminate well within it). -/
def fracDigits : ℕ → ℚ → List Char
  | 0, _ => []
  | fuel + 1, q =>
      if q = 0 then []
      else
        let d := ratTrunc (q * 10)
        Char.ofNat (48 + d.toNat) :: fracDigits fuel (q * 10 - (d : ℚ))

/-- Modelled `String(x)` for the finite numbers this library renders. -/
def jsNumStr (q : ℚ) : String :=
  let aq := |q|
  let ip := ratTrunc aq
  let fds := fracDigits 32 (aq - (ip : ℚ))
  (if q < 0 then "-" else "") ++ toString ip ++
    (if fds.isEmpty then "" else "." ++ String.mk fds)

/-- A channel cell of `Array.prototype.join`: null joins as the empty
string, a number by its decimal rendering. -/
def jsIntCell : Option ℤ → String
  | none => ""
  | some n => toString n

/-- An opacity cell of `Array.prototype.join`. -/
def jsOpacityCell : Option ℚ → String
  | none => ""
  | some q => jsNumStr q

namespace SiteColor

/-- The constructor: all four fields null. -/
def init : SiteColor := SiteColor.mk none none none none

/-- Method `setRed`: `red = numberBound(parseInt(red), 0, 255); this.r = isNaN(red) ? null : red`.
The parseInt output is integral, so the clamp stays in ℤ. -/
def setRed (c : SiteColor) (red : JSVal) : SiteColor :=
  match jsParseInt red with
  | none => SiteColor.mk none c.g c.b c.opacity
  | some n => SiteColor.mk (some (min (max n 0) 255)) c.g c.b c.opacity

/-- Method `setGreen`, as `setRed` for the `g` field. -/
def setGreen (c : SiteColor) (green : JSVal) : SiteColor :=
  match jsParseInt green with
  | none => SiteColor.mk c.r none c.b c.opacity
  | some n => SiteColor.mk c.r (some (min (max n 0) 255)) c.b c.opacity

/-- Method `setBlue`, as `setRed` for the `b` field. -/
def setBlue (c : SiteColor) (blue : JSVal) : SiteColor :=
  match jsParseInt blue with
  | none => SiteColor.mk c.r c.g none c.opacity
  | some n => SiteColor.mk c.r c.g (some (min (max n 0) 255)) c.opacity

/-- Method `setOpacity`: `opacity = numberBound(parseFloat(opacity), 0, 1)`. -/
def setOpacity (c : SiteColor) (o : JSVal) : SiteColor :=
  match jsParseFloat o with
  | none => SiteColor.mk c.r c.g c.b none
  | some q => SiteColor.mk c.r c.g c.b (some (numberBound q 0 1))

/-- Method `fillHex`: on a HEX_REGEXP match take the captured group, expand
a 3-digit group through SHORT_HEX_REGEXP, then set the channels from the hex
pairs and the opacity to 1; otherwise return the object unchanged. -/
def fillHex (c : SiteColor) (hex : String) : SiteColor :=
  match hexMatch? hex with
  | none => c
  | some ds =>
      let es := if ds.length = 3 then expand3 ds else ds
      ((((c.setRed (JSVal.num (some (hexPairAt es 0)))).setGreen
          (JSVal.num (some (hexPairAt es 2)))).setBlue
          (JSVal.num (some (hexPairAt es 4)))).setOpacity (JSVal.num (some 1)))

/-- Method `fillRgb`: on an RGB_REGEXP match pass the captured digit strings
to the setters and set the opacity to 1. -/
def fillRgb (c : SiteColor) (rgb : String) : SiteColor :=
  match rgbMatch? rgb with
  | none => c
  | some (d1, d2, d3) =>
      (((c.setRed (JSVal.str d1)).setGreen (JSVal.str d2)).setBlue
          (JSVal.str d3)).setOpacity (JSVal.num (some 1))

/-- Method `fillRgba`: on an RGBA_REGEXP match pass the four captured
strings to the setters. -/
def fillRgba (c : SiteColor) (rgba : String) : SiteColor :=
  match rgbaMatch? rgba with
  | none => c
  | some (d1, d2, d3, d4) =>
      (((c.setRed (JSVal.str d1)).setGreen (JSVal.str d2)).setBlue
          (JSVal.str d3)).setOpacity (JSVal.str d4)

/-- Method `fill`: dispatch on which regex tests true, in the order hex,
rgb, rgba; otherwise leave the object unchanged. -/
def fill (c : SiteColor) (colorString : String) : SiteColor :=
  if (hexMatch? colorString).isSome then c.fillHex colorString
  else if (rgbMatch? colorString).isSome then c.fillRgb colorString
  else if (rgbaMatch? colorString).isSome then c.fillRgba colorString
  else c

/-- Method `darken`: `percent = 1 - numberBound(parseFloat(percent), 0, 1)`,
then each channel is set to `this.channel * percent` (NaN, from an
unparsable percent, propagates and unsets the channel). -/
def darken (c : SiteColor) (percent : JSVal) : SiteColor :=
  let p := (jsParseFloat percent).map (fun q => 1 - numberBound q 0 1)
  let c1 := c.setRed (JSVal.num (p.map (fun q => jsChanQ c.r * q)))
  let c2 := c1.setGreen (JSVal.num (p.map (fun q => jsChanQ c1.g * q)))
  c2.setBlue (JSVal.num (p.map (fun q => jsChanQ c2.b * q)))

/-- Method `lighten`: as `darken` with `percent = 1 + numberBound(parseFloat(percent), 0, 1)`. -/
def lighten (c : SiteColor) (percent : JSVal) : SiteColor :=
  let p := (jsParseFloat percent).map (fun q => 1 + numberBound q 0 1)
  let c1 := c.setRed (JSVal.num (p.map (fun q => jsChanQ c.r * q)))
  let c2 := c1.setGreen (JSVal.num (p.map (fun q => jsChanQ c1.g * q)))
  c2.setBlue (JSVal.num (p.map (fun q => jsChanQ c2.b * q)))

/-- Method `blendWith`: `percent = numberBound(parseFloat(percent), 0, 1)`,
each channel set to `(color.channel - this.channel) * percent + this.channel`. -/
def blendWith (c : SiteColor) (color : SiteColor) (percent : JSVal) : SiteColor :=
  let p := (jsParseFloat percent).map (fun q => numberBound q 0 1)
  let c1 := c.setRed
    (JSVal.num (p.map (fun q => (jsChanQ color.r - jsChanQ c.r) * q + jsChanQ c.r)))
  let c2 := c1.setGreen
    (JSVal.num (p.map (fun q => (jsChanQ color.g - jsChanQ c1.g) * q + jsChanQ c1.g)))
  c2.setBlue (JSVal.num (p.map (fun q => (jsChanQ color.b - jsChanQ c2.b) * q + jsChanQ c2.b)))

/-- Method `toRgbArray`: the list `[this.r, this.g, this.b]`. -/
def toRgbArray (c : SiteColor) : List (Option ℤ) := [c.r, c.g, c.b]

/-- Method `toHex`: `"#" + ((1 << 24) + (r << 16) + (g << 8) + b).toString(16).slice(1)`;
a null channel shifts as 0. -/
def toHex (c : SiteColor) : String :=
  let v : ℤ := 2 ^ 24 + jsChan c.r * 2 ^ 16 + jsChan c.g * 2 ^ 8 + jsChan c.b
  String.mk ('#' :: (hexReprAux 32 v.toNat []).drop 1)

/-- Method `toRgb`: `rgb(` with the joined channels. -/
def toRgb (c : SiteColor) : String :=
  "rgb(" ++ jsIntCell c.r ++ ", " ++ jsIntCell c.g ++ ", " ++ jsIntCell c.b ++ ")"

/-- Method `toRgba`: `rgba(` with the joined channels and opacity. -/
def toRgba (c : SiteColor) : String :=
  "rgba(" ++ jsIntCell c.r ++ ", " ++ jsIntCell c.g ++ ", " ++ jsIntCell c.b ++
    ", " ++ jsOpacityCell c.opacity ++ ")"

/-- Method `toString`: `this.opacity === 1 ? this.toHex() : this.toRgba()`. -/
def toString (c : SiteColor) : String :=
  if c.opacity = some 1 then c.toHex else c.toRgba

end SiteColor

/-- Linearization of one normalized sRGB channel, the body of the map inside
the source helper `luminanace`. -/
noncomputable def srgbLin (v : ℝ) : ℝ :=
  if v ≤ 0.03928 then v / 12.92 else ((v + 0.055) / 1.055) ^ (2.4 : ℝ)

/-- Channel as a real number inside `luminanace` (`v /= 255` coerces null to 0). -/
noncomputable def chanR (o : Option ℤ) : ℝ := (jsChan o : ℝ)

/-- Source helper `luminanace(r, g, b)` (sic): weighted sum of the
linearized normalized channels. -/
noncomputable def luminanace (r g b : Option ℤ) : ℝ :=
  srgbLin (chanR r / 255) * 0.2126 + srgbLin (chanR g / 255) * 0.7152 +
    srgbLin (chanR b / 255) * 0.0722

/-- Source helper `contrast(rgb1, rgb2)`: the luminance ratio with 0.05
offsets, inverted when below 1. -/
noncomputable def contrast (rgb1 rgb2 : List (Option ℤ)) : ℝ :=
  let c := (luminanace (rgb1.getD 0 none) (rgb1.getD 1 none) (rgb1.getD 2 none) + 0.05) /
           (luminanace (rgb2.getD 0 none) (rgb2.getD 1 none) (rgb2.getD 2 none) + 0.05)
  if c < 1 then 1 / c else c

namespace SiteColor

/-- Method `getLuminance`: `luminanace(this.r, this.g, this.b)`. -/
noncomputable def getLuminance (c : SiteColor) : ℝ := luminanace c.r c.g c.b

/-- Method `compareContrastTo`: `contrast(this.toRgbArray(), color.toRgbArray())`. -/
noncomputable def compareContrastTo (c color : SiteColor) : ℝ :=
  contrast c.toRgbArray color.toRgbArray

end SiteColor

/-- Invariant of one channel field: unset or an integer in `[0, 255]`. -/
def chanWf : Option ℤ → Prop
  | none => True
  | some n => 0 ≤ n ∧ n ≤ 255

instance (o : Option ℤ) : Decidable (chanWf o) :=
  match o with
  | none => isTrue trivial
  | some n => inferInstanceAs (Decidable (0 ≤ n ∧ n ≤ 255))

/-- Invariant of the opacity field: unset or a number in `[0, 1]`. -/
def opacityWf : Option ℚ → Prop
  | none => True
  | some q => 0 ≤ q ∧ q ≤ 1

instance (o : Option ℚ) : Decidable (opacityWf o) :=
  match o with
  | none => isTrue trivial
  | some q => inferInstanceAs (Decidable (0 ≤ q ∧ q ≤ 1))

/-- The state invariant of the spec: every channel unset or in `[0, 255]`,
the opacity unset or in `[0, 1]`. -/
def Wf (c : SiteColor) : Prop :=
  chanWf c.r ∧ chanWf c.g ∧ chanWf c.b ∧ opacityWf c.opacity

instance (c : SiteColor) : Decidable (Wf c) :=
  inferInstanceAs (Decidable (_ ∧ _ ∧ _ ∧ _))

/-- A channel that is set and holds a value in `[0, 255]`. -/
def chanSet (o : Option ℤ) : Prop := ∃ n : ℤ, o = some n ∧ 0 ≤ n ∧ n ≤ 255

instance (o : Option ℤ) : Decidable (chanSet o) :=
  match o with
  | none => isFalse (fun hc => by obtain ⟨m, hm, -, -⟩ := hc; exact Option.noConfusion hm)
  | some n =>
      if h : 0 ≤ n ∧ n ≤ 255 then isTrue ⟨n, rfl, h.1, h.2⟩
      else
        isFalse (fun hc => by
          obtain ⟨m, hm, h1, h2⟩ := hc
          rw [Option.some.injEq] at hm
          exact h (hm ▸ ⟨h1, h2⟩))

/-! ### Evaluation and preservation lemmas -/

theorem ratTrunc_intCast (n : ℤ) : ratTrunc (n : ℚ) = n := by
  unfold ratTrunc
  split
  · exact Int.floor_intCast n
  · exact Int.ceil_intCast n

theorem ratTrunc_natCast (n : ℕ) : ratTrunc (n : ℚ) = n := by
  have h : ((n : ℤ) : ℚ) = (n : ℚ) := by push_cast; ring
  rw [← h, ratTrunc_intCast]

theorem ratTrunc_zero : ratTrunc 0 = 0 := by
  have h := ratTrunc_natCast 0
  simpa using h

theorem clamp255_mem (n : ℤ) : 0 ≤ min (max n 0) 255 ∧ min (max n 0) 255 ≤ 255 := by omega

theorem clamp255_eq_self {n : ℤ} (h0 : 0 ≤ n) (h1 : n ≤ 255) : min (max n 0) 255 = n := by
  omega

theorem numberBound01_mem (q : ℚ) : 0 ≤ numberBound q 0 1 ∧ numberBound q 0 1 ≤ 1 := by
  unfold numberBound
  constructor
  · exact le_min (le_max_right q 0) zero_le_one
  · exact min_le_right _ _

theorem numberBound_one : numberBound 1 0 1 = 1 := by
  unfold numberBound
  rw [max_eq_left zero_le_one, min_self]

theorem setRed_num_some (c : SiteColor) (q : ℚ) :
    c.setRed (JSVal.num (some q)) =
      SiteColor.mk (some (min (max (ratTrunc q) 0) 255)) c.g c.b c.opacity := rfl

theorem setGreen_num_some (c : SiteColor) (q : ℚ) :
    c.setGreen (JSVal.num (some q)) =
      SiteColor.mk c.r (some (min (max (ratTrunc q) 0) 255)) c.b c.opacity := rfl

theorem setBlue_num_some (c : SiteColor) (q : ℚ) :
    c.setBlue (JSVal.num (some q)) =
      SiteColor.mk c.r c.g (some (min (max (ratTrunc q) 0) 255)) c.opacity := rfl

theorem setOpacity_num_some (c : SiteColor) (q : ℚ) :
    c.setOpacity (JSVal.num (some q)) =
      SiteColor.mk c.r c.g c.b (some (numberBound q 0 1)) := rfl

theorem setRed_num_none (c : SiteColor) :
    c.setRed (JSVal.num none) = SiteColor.mk none c.g c.b c.opacity := rfl

theorem setGreen_num_none (c : SiteColor) :
    c.setGreen (JSVal.num none) = SiteColor.mk c.r none c.b c.opacity := rfl

theorem setBlue_num_none (c : SiteColor) :
    c.setBlue (JSVal.num none) = SiteColor.mk c.r c.g none c.opacity := rfl

theorem hexDigitVal_lt (ch : Char) : hexDigitVal ch < 16 := by
  unfold hexDigitVal isDigitCh
  split
  · next h =>
      rw [Bool.and_eq_true, decide_eq_true_eq, decide_eq_true_eq] at h
      omega
  · split
    · next h =>
        rw [Bool.and_eq_true, decide_eq_true_eq, decide_eq_true_eq] at h
        omega
    · split
      · next h =>
          rw [Bool.and_eq_true, decide_eq_true_eq, decide_eq_true_eq] at h
          omega
      · omega

theorem hexPairAt_lt (ds : List Char) (i : ℕ) : hexPairAt ds i < 256 := by
  unfold hexPairAt
  have h1 := hexDigitVal_lt (ds.getD i '0')
  have h2 := hexDigitVal_lt (ds.getD (i + 1) '0')
  omega

/-- Evaluation of `fillHex` on a matching input, with the clamp collapsed
since a hex pair is already in range. -/
theorem fillHex_eval (c : SiteColor) {s : String} {ds : List Char}
    (h : hexMatch? s = some ds) :
    c.fillHex s =
      SiteColor.mk (some ((hexPairAt (if ds.length = 3 then expand3 ds else ds) 0 : ℕ) : ℤ))
        (some ((hexPairAt (if ds.length = 3 then expand3 ds else ds) 2 : ℕ) : ℤ))
        (some ((hexPairAt (if ds.length = 3 then expand3 ds else ds) 4 : ℕ) : ℤ))
        (some 1) := by
  unfold SiteColor.fillHex
  rw [h]
  simp only [setRed_num_some, setGreen_num_some, setBlue_num_some, setOpacity_num_some,
    ratTrunc_natCast, numberBound_one]
  have b0 := hexPairAt_lt (if ds.length = 3 then expand3 ds else ds) 0
  have b2 := hexPairAt_lt (if ds.length = 3 then expand3 ds else ds) 2
  have b4 := hexPairAt_lt (if ds.length = 3 then expand3 ds else ds) 4
  have e0 : min (max ((hexPairAt (if ds.length = 3 then expand3 ds else ds) 0 : ℕ) : ℤ) 0) 255 =
      ((hexPairAt (if ds.length = 3 then expand3 ds else ds) 0 : ℕ) : ℤ) := by omega
  have e2 : min (max ((hexPairAt (if ds.length = 3 then expand3 ds else ds) 2 : ℕ) : ℤ) 0) 255 =
      ((hexPairAt (if ds.length = 3 then expand3 ds else ds) 2 : ℕ) : ℤ) := by omega
  have e4 : min (max ((hexPairAt (if ds.length = 3 then expand3 ds else ds) 4 : ℕ) : ℤ) 0) 255 =
      ((hexPairAt (if ds.length = 3 then expand3 ds else ds) 4 : ℕ) : ℤ) := by omega
  rw [e0, e2, e4]

theorem setRed_opacity (c : SiteColor) (v : JSVal) : (c.setRed v).opacity = c.opacity := by
  unfold SiteColor.setRed
  cases jsParseInt v <;> rfl

theorem setGreen_opacity (c : SiteColor) (v : JSVal) : (c.setGreen v).opacity = c.opacity := by
  unfold SiteColor.setGreen
  cases jsParseInt v <;> rfl

theorem setBlue_opacity (c : SiteColor) (v : JSVal) : (c.setBlue v).opacity = c.opacity := by
  unfold SiteColor.setBlue
  cases jsParseInt v <;> rfl

theorem wf_setRed {c : SiteColor} (h : Wf c) (v : JSVal) : Wf (c.setRed v) := by
  obtain ⟨h1, h2, h3, h4⟩ := h
  unfold SiteColor.setRed
  cases jsParseInt v with
  | none => exact ⟨trivial, h2, h3, h4⟩
  | some n => exact ⟨clamp255_mem n, h2, h3, h4⟩

theorem wf_setGreen {c : SiteColor} (h : Wf c) (v : JSVal) : Wf (c.setGreen v) := by
  obtain ⟨h1, h2, h3, h4⟩ := h
  unfold SiteColor.setGreen
  cases jsParseInt v with
  | none => exact ⟨h1, trivial, h3, h4⟩
  | some n => exact ⟨h1, clamp255_mem n, h3, h4⟩

theorem wf_setBlue {c : SiteColor} (h : Wf c) (v : JSVal) : Wf (c.setBlue v) := by
  obtain ⟨h1, h2, h3, h4⟩ := h
  unfold SiteColor.setBlue
  cases jsParseInt v with
  | none => exact ⟨h1, h2, trivial, h4⟩
  | some n => exact ⟨h1, h2, clamp255_mem n, h4⟩

theorem wf_setOpacity {c : SiteColor} (h : Wf c) (v : JSVal) : Wf (c.setOpacity v) := by
  obtain ⟨h1, h2, h3, h4⟩ := h
  unfold SiteColor.setOpacity
  cases jsParseFloat v with
  | none => exact ⟨h1, h2, h3, trivial⟩
  | some q => exact ⟨h1, h2, h3, numberBound01_mem q⟩

theorem wf_fillHex {c : SiteColor} (h : Wf c) (s : String) : Wf (c.fillHex s) := by
  unfold SiteColor.fillHex
  cases hexMatch? s with
  | none => exact h
  | some ds => exact wf_setOpacity (wf_setBlue (wf_setGreen (wf_setRed h _) _) _) _

theorem wf_fillRgb {c : SiteColor} (h : Wf c) (s : String) : Wf (c.fillRgb s) := by
  unfold SiteColor.fillRgb
  cases rgbMatch? s with
  | none => exact h
  | some t =>
      obtain ⟨d1, d2, d3⟩ := t
      exact wf_setOpacity (wf_setBlue (wf_setGreen (wf_setRed h _) _) _) _

theorem wf_fillRgba {c : SiteColor} (h : Wf c) (s : String) : Wf (c.fillRgba s) := by
  unfold SiteColor.fillRgba
  cases rgbaMatch? s with
  | none => exact h
  | some t =>
      obtain ⟨d1, d2, d3, d4⟩ := t
      exact wf_setOpacity (wf_setBlue (wf_setGreen (wf_setRed h _) _) _) _

theorem wf_fill {c : SiteColor} (h : Wf c) (s : String) : Wf (c.fill s) := by
  unfold SiteColor.fill
  split
  · exact wf_fillHex h s
  · split
    · exact wf_fillRgb h s
    · split
      · exact wf_fillRgba h s
      · exact h

theorem wf_darken {c : SiteColor} (h : Wf c) (v : JSVal) : Wf (c.darken v) := by
  unfold SiteColor.darken
  exact wf_setBlue (wf_setGreen (wf_setRed h _) _) _

theorem wf_lighten {c : SiteColor} (h : Wf c) (v : JSVal) : Wf (c.lighten v) := by
  unfold SiteColor.lighten
  exact wf_setBlue (wf_setGreen (wf_setRed h _) _) _

theorem wf_blendWith {c : SiteColor} (h : Wf c) (o : SiteColor) (v : JSVal) :
    Wf (c.blendWith o v) := by
  unfold SiteColor.blendWith
  exact wf_setBlue (wf_setGreen (wf_setRed h _) _) _

theorem darken_eval (c : SiteColor) (p : ℚ) :
    c.darken (JSVal.num (some p)) =
      SiteColor.mk
        (some (min (max (ratTrunc (jsChanQ c.r * (1 - numberBound p 0 1))) 0) 255))
        (some (min (max (ratTrunc (jsChanQ c.g * (1 - numberBound p 0 1))) 0) 255))
        (some (min (max (ratTrunc (jsChanQ c.b * (1 - numberBound p 0 1))) 0) 255))
        c.opacity := by
  unfold SiteColor.darken
  simp only [jsParseFloat, Option.map, setRed_num_some, setGreen_num_some, setBlue_num_some]

theorem lighten_eval (c : SiteColor) (p : ℚ) :
    c.lighten (JSVal.num (some p)) =
      SiteColor.mk
        (some (min (max (ratTrunc (jsChanQ c.r * (1 + numberBound p 0 1))) 0) 255))
        (some (min (max (ratTrunc (jsChanQ c.g * (1 + numberBound p 0 1))) 0) 255))
        (some (min (max (ratTrunc (jsChanQ c.b * (1 + numberBound p 0 1))) 0) 255))
        c.opacity := by
  unfold SiteColor.lighten
  simp only [jsParseFloat, Option.map, setRed_num_some, setGreen_num_some, setBlue_num_some]

theorem blendWith_eval (c o : SiteColor) (p : ℚ) :
    c.blendWith o (JSVal.num (some p)) =
      SiteColor.mk
        (some (min (max (ratTrunc ((jsChanQ o.r - jsChanQ c.r) * numberBound p 0 1 + jsChanQ c.r)) 0) 255))
        (some (min (max (ratTrunc ((jsChanQ o.g - jsChanQ c.g) * numberBound p 0 1 + jsChanQ c.g)) 0) 255))
        (some (min (max (ratTrunc ((jsChanQ o.b - jsChanQ c.b) * numberBound p 0 1 + jsChanQ c.b)) 0) 255))
        c.opacity := by
  unfold SiteColor.blendWith
  simp only [jsParseFloat, Option.map, setRed_num_some, setGreen_num_some, setBlue_num_some]

theorem blendWith_opacity (c o : SiteColor) (v : JSVal) :
    (c.blendWith o v).opacity = c.opacity := by
  unfold SiteColor.blendWith
  rw [setBlue_opacity, setGreen_opacity, setRed_opacity]

theorem chanSet_wf {o : Option ℤ} (h : chanSet o) : chanWf o := by
  obtain ⟨n, rfl, h1, h2⟩ := h
  exact ⟨h1, h2⟩

theorem srgbLin_nonneg {v : ℝ} (h0 : 0 ≤ v) : 0 ≤ srgbLin v := by
  unfold srgbLin
  split
  · exact div_nonneg h0 (by norm_num)
  · exact Real.rpow_nonneg (div_nonneg (by linarith) (by norm_num)) _

theorem srgbLin_le_one {v : ℝ} (h0 : 0 ≤ v) (h1 : v ≤ 1) : srgbLin v ≤ 1 := by
  unfold srgbLin
  split
  · rw [div_le_one (by norm_num)]
    linarith
  · exact Real.rpow_le_one (div_nonneg (by linarith) (by norm_num))
      (by rw [div_le_one (by norm_num)]; linarith) (by norm_num)

theorem srgbLin_one : srgbLin 1 = 1 := by
  unfold srgbLin
  rw [if_neg (by norm_num)]
  have h : ((1 : ℝ) + 0.055) / 1.055 = 1 := by norm_num
  rw [h, Real.one_rpow]

theorem srgbLin_zero : srgbLin 0 = 0 := by
  unfold srgbLin
  rw [if_pos (by norm_num)]
  norm_num

theorem chanR_mem {o : Option ℤ} (h : chanWf o) : 0 ≤ chanR o ∧ chanR o ≤ 255 := by
  cases o with
  | none => norm_num [chanR, jsChan]
  | some n =>
      obtain ⟨h1, h2⟩ := h
      unfold chanR jsChan
      constructor
      · simp only [Option.getD]
        exact_mod_cast h1
      · simp only [Option.getD]
        exact_mod_cast h2

theorem luminanace_mem {r g b : Option ℤ} (hr : chanWf r) (hg : chanWf g) (hb : chanWf b) :
    0 ≤ luminanace r g b ∧ luminanace r g b ≤ 1 := by
  obtain ⟨hr0, hr1⟩ := chanR_mem hr
  obtain ⟨hg0, hg1⟩ := chanR_mem hg
  obtain ⟨hb0, hb1⟩ := chanR_mem hb
  have vr0 : (0 : ℝ) ≤ chanR r / 255 := div_nonneg hr0 (by norm_num)
  have vr1 : chanR r / 255 ≤ 1 := by rw [div_le_one (by norm_num)]; linarith
  have vg0 : (0 : ℝ) ≤ chanR g / 255 := div_nonneg hg0 (by norm_num)
  have vg1 : chanR g / 255 ≤ 1 := by rw [div_le_one (by norm_num)]; linarith
  have vb0 : (0 : ℝ) ≤ chanR b / 255 := div_nonneg hb0 (by norm_num)
  have vb1 : chanR b / 255 ≤ 1 := by rw [div_le_one (by norm_num)]; linarith
  have lr0 := srgbLin_nonneg vr0
  have lr1 := srgbLin_le_one vr0 vr1
  have lg0 := srgbLin_nonneg vg0
  have lg1 := srgbLin_le_one vg0 vg1
  have lb0 := srgbLin_nonneg vb0
  have lb1 := srgbLin_le_one vb0 vb1
  unfold luminanace
  constructor <;> nlinarith

theorem contrast_eval (a b : SiteColor) :
    a.compareContrastTo b =
      if (luminanace a.r a.g a.b + 0.05) / (luminanace b.r b.g b.b + 0.05) < 1 then
        1 / ((luminanace a.r a.g a.b + 0.05) / (luminanace b.r b.g b.b + 0.05))
      else (luminanace a.r a.g a.b + 0.05) / (luminanace b.r b.g b.b + 0.05) := rfl

theorem ratioFix_ge_one {x y : ℝ} (hx : 0 < x) (hy : 0 < y) :
    1 ≤ (if x / y < 1 then 1 / (x / y) else x / y) := by
  have hc : 0 < x / y := div_pos hx hy
  split
  · next h =>
      rw [le_div_iff hc, one_mul]
      exact le_of_lt h
  · next h => exact not_lt.mp h

theorem ratioFix_le_21 {x y : ℝ} (hx0 : 0.05 ≤ x) (hx1 : x ≤ 1.05) (hy0 : 0.05 ≤ y)
    (hy1 : y ≤ 1.05) : (if x / y < 1 then 1 / (x / y) else x / y) ≤ 21 := by
  have hx : (0 : ℝ) < x := lt_of_lt_of_le (by norm_num) hx0
  have hy : (0 : ℝ) < y := lt_of_lt_of_le (by norm_num) hy0
  split
  · rw [one_div_div, div_le_iff hx]
    linarith
  · rw [div_le_iff hy]
    linarith

theorem ratioFix_symm {x y : ℝ} (hx : 0 < x) (hy : 0 < y) :
    (if x / y < 1 then 1 / (x / y) else x / y) =
      (if y / x < 1 then 1 / (y / x) else y / x) := by
  rcases lt_trichotomy x y with h | h | h
  · have h1 : x / y < 1 := (div_lt_one hy).mpr h
    have h2 : ¬ y / x < 1 := not_lt.mpr ((one_le_div hx).mpr (le_of_lt h))
    rw [if_pos h1, if_neg h2, one_div_div]
  · subst h
    rfl
  · have h1 : ¬ x / y < 1 := not_lt.mpr ((one_le_div hy).mpr (le_of_lt h))
    have h2 : y / x < 1 := (div_lt_one hx).mpr h
    rw [if_neg h1, if_pos h2, one_div_div]

theorem luminanace_white : luminanace (some 255) (some 255) (some 255) = 1 := by
  unfold luminanace
  have h : chanR (some 255) / 255 = 1 := by
    unfold chanR jsChan
    simp only [Option.getD]
    norm_num
  rw [h, srgbLin_one]
  norm_num

theorem luminanace_black : luminanace (some 0) (some 0) (some 0) = 0 := by
  unfold luminanace
  have h : chanR (some 0) / 255 = 0 := by
    unfold chanR jsChan
    simp only [Option.getD]
    norm_num
  rw [h, srgbLin_zero]
  norm_num

/-! ### Claim theorems -/

/-- Claim C1: every public operation preserves the state invariant: each of
red, green, blue is unset or an integer in [0, 255], and the opacity is
unset or a number in [0, 1]; in particular setRed 300 stores 255 and
setRed (-5) stores 0. -/
theorem c1_state_invariant :
    ∀ c : SiteColor, Wf c →
      (∀ v, Wf (c.setRed v)) ∧ (∀ v, Wf (c.setGreen v)) ∧ (∀ v, Wf (c.setBlue v)) ∧
      (∀ v, Wf (c.setOpacity v)) ∧ (∀ s, Wf (c.fillHex s)) ∧ (∀ s, Wf (c.fillRgb s)) ∧
      (∀ s, Wf (c.fillRgba s)) ∧ (∀ s, Wf (c.fill s)) ∧ (∀ v, Wf (c.darken v)) ∧
      (∀ v, Wf (c.lighten v)) ∧ (∀ o v, Wf (c.blendWith o v)) ∧
      (c.setRed (JSVal.num (some 300))).r = some 255 ∧
      (c.setRed (JSVal.num (some (-5)))).r = some 0 := by
  intro c h
  refine ⟨wf_setRed h, wf_setGreen h, wf_setBlue h, wf_setOpacity h, wf_fillHex h,
    wf_fillRgb h, wf_fillRgba h, wf_fill h, wf_darken h, wf_lighten h,
    fun o v => wf_blendWith h o v, ?_, ?_⟩
  · rw [setRed_num_some]
    have hc : ((300 : ℤ) : ℚ) = (300 : ℚ) := by norm_num
    have ht : ratTrunc (300 : ℚ) = 300 := by rw [← hc, ratTrunc_intCast]
    rw [ht]
    show some ((300 ⊔ 0) ⊓ 255 : ℤ) = some 255
    decide
  · rw [setRed_num_some]
    have hc : ((-5 : ℤ) : ℚ) = (-5 : ℚ) := by norm_num
    have ht : ratTrunc (-5 : ℚ) = -5 := by rw [← hc, ratTrunc_intCast]
    rw [ht]
    show some ((-5 ⊔ 0) ⊓ 255 : ℤ) = some 0
    decide

theorem c1_state_invariant_witness :
    Wf SiteColor.init ∧ Wf (SiteColor.init.setRed (JSVal.str "77")) :=
  ⟨by decide, (c1_state_invariant SiteColor.init (by decide)).1 (JSVal.str "77")⟩

/-- Claim C2: no parser or setter raises an error: each setter stores the
clamped parsed value, or unsets the field when coercion fails (NaN); each
parser is the identity on the state when its pattern does not match, and so
is fill when no pattern matches. -/
theorem c2_never_throws :
    ∀ (c : SiteColor) (v : JSVal) (s : String),
      (jsParseInt v = none → (c.setRed v).r = none) ∧
      (∀ n, jsParseInt v = some n → (c.setRed v).r = some (min (max n 0) 255)) ∧
      (jsParseInt v = none → (c.setGreen v).g = none) ∧
      (∀ n, jsParseInt v = some n → (c.setGreen v).g = some (min (max n 0) 255)) ∧
      (jsParseInt v = none → (c.setBlue v).b = none) ∧
      (∀ n, jsParseInt v = some n → (c.setBlue v).b = some (min (max n 0) 255)) ∧
      (jsParseFloat v = none → (c.setOpacity v).opacity = none) ∧
      (∀ q, jsParseFloat v = some q → (c.setOpacity v).opacity = some (numberBound q 0 1)) ∧
      (hexMatch? s = none → c.fillHex s = c) ∧
      (rgbMatch? s = none → c.fillRgb s = c) ∧
      (rgbaMatch? s = none → c.fillRgba s = c) ∧
      (hexMatch? s = none → rgbMatch? s = none → rgbaMatch? s = none → c.fill s = c) := by
  intro c v s
  refine ⟨?_, ?_, ?_, ?_, ?_, ?_, ?_, ?_, ?_, ?_, ?_, ?_⟩
  · intro h
    unfold SiteColor.setRed
    rw [h]
  · intro n h
    unfold SiteColor.setRed
    rw [h]
  · intro h
    unfold SiteColor.setGreen
    rw [h]
  · intro n h
    unfold SiteColor.setGreen
    rw [h]
  · intro h
    unfold SiteColor.setBlue
    rw [h]
  · intro n h
    unfold SiteColor.setBlue
    rw [h]
  · intro h
    unfold SiteColor.setOpacity
    rw [h]
  · intro q h
    unfold SiteColor.setOpacity
    rw [h]
  · intro h
    unfold SiteColor.fillHex
    rw [h]
  · intro h
    unfold SiteColor.fillRgb
    rw [h]
  · intro h
    unfold SiteColor.fillRgba
    rw [h]
  · intro h1 h2 h3
    unfold SiteColor.fill
    rw [h1, h2, h3]
    rfl

theorem c2_never_throws_witness :
    (SiteColor.init.setRed (JSVal.str "abc")).r = none ∧
      SiteColor.init.fill "no color" = SiteColor.init :=
  ⟨(c2_never_throws SiteColor.init (JSVal.str "abc") "x").1 (by decide),
   (c2_never_throws SiteColor.init (JSVal.str "x") "no color").2.2.2.2.2.2.2.2.2.2.2
     (by decide) (by decide) (by decide)⟩

/-- Claim C9: darken followed by lighten with the same percent is not an
exact inverse: a color and a percent in [0, 1] exist where the round trip
changes the channel triple, because of integer truncation in the setters. -/
theorem c9_darken_lighten_lossy :
    ∃ (c : SiteColor) (p : ℚ), Wf c ∧ c.r ≠ none ∧ c.g ≠ none ∧ c.b ≠ none ∧
      0 ≤ p ∧ p ≤ 1 ∧
      ((c.darken (JSVal.num (some p))).lighten (JSVal.num (some p))).toRgbArray ≠
        c.toRgbArray := by
  refine ⟨SiteColor.mk (some 1) (some 1) (some 1) none, 1/2, by decide, by decide, by decide,
    by decide, by norm_num, by norm_num, ?_⟩
  have h1 : (SiteColor.mk (some 1) (some 1) (some 1) none).darken (JSVal.num (some (1/2))) =
      SiteColor.mk (some 0) (some 0) (some 0) none := by
    rw [darken_eval]
    have hq : jsChanQ (some 1) * (1 - numberBound (1/2) 0 1) = 1/2 := by
      unfold jsChanQ jsChan numberBound
      simp only [Option.getD]
      norm_num
    have ht : ratTrunc (1/2 : ℚ) = 0 := by
      unfold ratTrunc
      rw [if_pos (by norm_num)]
      norm_num
    simp only [hq, ht]
    rfl
  have h2 : (SiteColor.mk (some 0) (some 0) (some 0) none).lighten (JSVal.num (some (1/2))) =
      SiteColor.mk (some 0) (some 0) (some 0) none := by
    rw [lighten_eval]
    have hq : jsChanQ (some 0) * (1 + numberBound (1/2) 0 1) = 0 := by
      unfold jsChanQ jsChan numberBound
      simp only [Option.getD]
      norm_num
    simp only [hq, ratTrunc_zero]
    rfl
  rw [h1, h2]
  decide

/-- Claim C10: unset channels do not survive darken or lighten: on a color
with all three channels null, either transformation with a numeric percent
stores 0 in all three channels, because null coerces to 0 in the channel
product and the setter stores the integer 0. -/
theorem c10_unset_becomes_zero :
    ∀ (c : SiteColor) (p : ℚ), c.r = none → c.g = none → c.b = none →
      (c.darken (JSVal.num (some p))).toRgbArray = [some 0, some 0, some 0] ∧
      (c.lighten (JSVal.num (some p))).toRgbArray = [some 0, some 0, some 0] := by
  intro c p h1 h2 h3
  have hz : jsChanQ none = 0 := rfl
  constructor
  · rw [darken_eval]
    unfold SiteColor.toRgbArray
    simp only [h1, h2, h3, hz, zero_mul, ratTrunc_zero]
    rfl
  · rw [lighten_eval]
    unfold SiteColor.toRgbArray
    simp only [h1, h2, h3, hz, zero_mul, ratTrunc_zero]
    rfl

theorem c10_unset_becomes_zero_witness :
    (SiteColor.init.darken (JSVal.num (some (3/10)))).toRgbArray =
      [some 0, some 0, some 0] :=
  (c10_unset_becomes_zero SiteColor.init (3/10) rfl rfl rfl).1

theorem fill_f00 :
    SiteColor.init.fill "#f00" = SiteColor.mk (some 255) (some 0) (some 0) (some 1) := by
  decide

theorem fill_ff00aa :
    SiteColor.init.fill "#ff00aa" = SiteColor.mk (some 255) (some 0) (some 170) (some 1) := by
  decide

theorem fill_fff :
    SiteColor.init.fill "#fff" = SiteColor.mk (some 255) (some 255) (some 255) (some 1) := by
  decide

theorem fill_000 :
    SiteColor.init.fill "#000" = SiteColor.mk (some 0) (some 0) (some 0) (some 1) := by
  decide

theorem fill_fa1 :
    SiteColor.init.fill "#fa1" = SiteColor.mk (some 255) (some 170) (some 17) (some 1) := by
  decide

/-- Claim C3: on every string matching the hex regex, fillHex sets the three
channels from the hex pairs of the captured group (a 3-digit group expanded
by duplicating each digit) and forces opacity to 1; in particular
fill("#f00").toHex() is "#ff0000" and fill("#ff00aa").toRgbArray() is
[255, 0, 170]. -/
theorem c3_fillHex_semantics :
    (∀ (c : SiteColor) (s : String) (ds : List Char), hexMatch? s = some ds →
      (c.fillHex s).r =
        some ((hexPairAt (if ds.length = 3 then expand3 ds else ds) 0 : ℕ) : ℤ) ∧
      (c.fillHex s).g =
        some ((hexPairAt (if ds.length = 3 then expand3 ds else ds) 2 : ℕ) : ℤ) ∧
      (c.fillHex s).b =
        some ((hexPairAt (if ds.length = 3 then expand3 ds else ds) 4 : ℕ) : ℤ) ∧
      (c.fillHex s).opacity = some 1) ∧
    (SiteColor.init.fill "#f00").toHex = "#ff0000" ∧
    (SiteColor.init.fill "#ff00aa").toRgbArray = [some 255, some 0, some 170] := by
  refine ⟨?_, ?_, ?_⟩
  · intro c s ds h
    rw [fillHex_eval c h]
    exact ⟨rfl, rfl, rfl, rfl⟩
  · rw [fill_f00]
    decide
  · rw [fill_ff00aa]
    decide

theorem c3_fillHex_semantics_witness :
    hexMatch? "#03f" = some ['0', '3', 'f'] ∧
      (SiteColor.init.fillHex "#03f").opacity = some 1 :=
  ⟨by decide, (c3_fillHex_semantics.1 SiteColor.init "#03f" ['0', '3', 'f'] (by decide)).2.2.2⟩

theorem hexDigitChar_val {d : ℕ} (h : d < 16) : hexDigitVal (hexDigitChar d) = d := by
  interval_cases d <;> decide

theorem isHexCh_hexDigitChar {d : ℕ} (h : d < 16) : isHexCh (hexDigitChar d) = true := by
  interval_cases d <;> decide

theorem hexReprAux_step (fuel n : ℕ) (acc : List Char) (h : n ≠ 0) :
    hexReprAux (fuel + 1) n acc = hexReprAux fuel (n / 16) (hexDigitChar (n % 16) :: acc) := by
  simp only [hexReprAux]
  rw [if_neg h]

theorem hexReprAux_eval (n1 n2 n3 : ℕ) (h1 : n1 < 256) (h2 : n2 < 256) (h3 : n3 < 256) :
    hexReprAux 32 (2 ^ 24 + n1 * 2 ^ 16 + n2 * 2 ^ 8 + n3) [] =
      ['1', hexDigitChar (n1 / 16), hexDigitChar (n1 % 16), hexDigitChar (n2 / 16),
        hexDigitChar (n2 % 16), hexDigitChar (n3 / 16), hexDigitChar (n3 % 16)] := by
  have s1 : (2 ^ 24 + n1 * 2 ^ 16 + n2 * 2 ^ 8 + n3) % 16 = n3 % 16 := by omega
  have q1 : (2 ^ 24 + n1 * 2 ^ 16 + n2 * 2 ^ 8 + n3) / 16 =
      2 ^ 20 + n1 * 2 ^ 12 + n2 * 2 ^ 4 + n3 / 16 := by omega
  have s2 : (2 ^ 20 + n1 * 2 ^ 12 + n2 * 2 ^ 4 + n3 / 16) % 16 = n3 / 16 := by omega
  have q2 : (2 ^ 20 + n1 * 2 ^ 12 + n2 * 2 ^ 4 + n3 / 16) / 16 =
      2 ^ 16 + n1 * 2 ^ 8 + n2 := by omega
  have s3 : (2 ^ 16 + n1 * 2 ^ 8 + n2) % 16 = n2 % 16 := by omega
  have q3 : (2 ^ 16 + n1 * 2 ^ 8 + n2) / 16 = 2 ^ 12 + n1 * 2 ^ 4 + n2 / 16 := by omega
  have s4 : (2 ^ 12 + n1 * 2 ^ 4 + n2 / 16) % 16 = n2 / 16 := by omega
  have q4 : (2 ^ 12 + n1 * 2 ^ 4 + n2 / 16) / 16 = 2 ^ 8 + n1 := by omega
  have s5 : (2 ^ 8 + n1) % 16 = n1 % 16 := by omega
  have q5 : (2 ^ 8 + n1) / 16 = 2 ^ 4 + n1 / 16 := by omega
  have s6 : (2 ^ 4 + n1 / 16) % 16 = n1 / 16 := by omega
  have q6 : (2 ^ 4 + n1 / 16) / 16 = 1 := by omega
  rw [hexReprAux_step _ _ _ (by omega), s1, q1]
  rw [hexReprAux_step _ _ _ (by omega), s2, q2]
  rw [hexReprAux_step _ _ _ (by omega), s3, q3]
  rw [hexReprAux_step _ _ _ (by omega), s4, q4]
  rw [hexReprAux_step _ _ _ (by omega), s5, q5]
  rw [hexReprAux_step _ _ _ (by omega), s6, q6]
  rw [hexReprAux_step _ _ _ (by omega)]
  norm_num
  rfl

theorem toHex_eval (n1 n2 n3 : ℕ) (h1 : n1 < 256) (h2 : n2 < 256) (h3 : n3 < 256)
    (op : Option ℚ) :
    (SiteColor.mk (some (n1 : ℤ)) (some (n2 : ℤ)) (some (n3 : ℤ)) op).toHex =
      String.mk ['#', hexDigitChar (n1 / 16), hexDigitChar (n1 % 16), hexDigitChar (n2 / 16),
        hexDigitChar (n2 % 16), hexDigitChar (n3 / 16), hexDigitChar (n3 % 16)] := by
  unfold SiteColor.toHex
  dsimp only
  have hv : ((2 : ℤ) ^ 24 + jsChan (some (n1 : ℤ)) * 2 ^ 16 + jsChan (some (n2 : ℤ)) * 2 ^ 8 +
      jsChan (some (n3 : ℤ))).toNat = 2 ^ 24 + n1 * 2 ^ 16 + n2 * 2 ^ 8 + n3 := by
    unfold jsChan
    simp only [Option.getD]
    omega
  rw [hv, hexReprAux_eval n1 n2 n3 h1 h2 h3]
  rfl

theorem hexMatch?_mk_hash (t : List Char) (hall : t.all isHexCh = true) (hlen : t.length = 6) :
    hexMatch? (String.mk ('#' :: t)) = some t := by
  show (if t.all isHexCh && (t.length == 3 || t.length == 6) then some t else none) = some t
  rw [hall, hlen]
  rfl

theorem hexPair_roundtrip {a : ℕ} (h : a < 256) :
    16 * hexDigitVal (hexDigitChar (a / 16)) + hexDigitVal (hexDigitChar (a % 16)) = a := by
  rw [hexDigitChar_val (by omega), hexDigitChar_val (by omega)]
  omega

/-- Claim C4: a hex string accepted by fillHex serializes through toHex to a
zero-padded 6-digit hash-prefixed hex string, and parsing that string with
fillHex on a fresh object reproduces the same channel triple. -/
theorem c4_hex_roundtrip :
    ∀ (c0 : SiteColor) (s : String), (hexMatch? s).isSome →
      ∃ t : List Char, (c0.fillHex s).toHex.data = '#' :: t ∧ t.length = 6 ∧
        t.all isHexCh = true ∧
        (SiteColor.init.fillHex (c0.fillHex s).toHex).r = (c0.fillHex s).r ∧
        (SiteColor.init.fillHex (c0.fillHex s).toHex).g = (c0.fillHex s).g ∧
        (SiteColor.init.fillHex (c0.fillHex s).toHex).b = (c0.fillHex s).b := by
  intro c0 s hs
  obtain ⟨ds, hds⟩ := Option.isSome_iff_exists.mp hs
  have hfill := fillHex_eval c0 hds
  generalize hN1 : hexPairAt (if ds.length = 3 then expand3 ds else ds) 0 = n1 at hfill
  generalize hN2 : hexPairAt (if ds.length = 3 then expand3 ds else ds) 2 = n2 at hfill
  generalize hN3 : hexPairAt (if ds.length = 3 then expand3 ds else ds) 4 = n3 at hfill
  have b1 : n1 < 256 := hN1 ▸ hexPairAt_lt _ 0
  have b2 : n2 < 256 := hN2 ▸ hexPairAt_lt _ 2
  have b3 : n3 < 256 := hN3 ▸ hexPairAt_lt _ 4
  have htoHex : (c0.fillHex s).toHex =
      String.mk ['#', hexDigitChar (n1 / 16), hexDigitChar (n1 % 16), hexDigitChar (n2 / 16),
        hexDigitChar (n2 % 16), hexDigitChar (n3 / 16), hexDigitChar (n3 % 16)] := by
    rw [hfill]
    exact toHex_eval n1 n2 n3 b1 b2 b3 _
  have hall : ([hexDigitChar (n1 / 16), hexDigitChar (n1 % 16), hexDigitChar (n2 / 16),
      hexDigitChar (n2 % 16), hexDigitChar (n3 / 16), hexDigitChar (n3 % 16)]).all isHexCh
      = true := by
    simp only [List.all_cons, List.all_nil, Bool.and_eq_true]
    refine ⟨isHexCh_hexDigitChar (by omega), isHexCh_hexDigitChar (by omega),
      isHexCh_hexDigitChar (by omega), isHexCh_hexDigitChar (by omega),
      isHexCh_hexDigitChar (by omega), isHexCh_hexDigitChar (by omega), by trivial⟩
  have hm2 : hexMatch? ((c0.fillHex s).toHex) =
      some [hexDigitChar (n1 / 16), hexDigitChar (n1 % 16), hexDigitChar (n2 / 16),
        hexDigitChar (n2 % 16), hexDigitChar (n3 / 16), hexDigitChar (n3 % 16)] := by
    rw [htoHex]
    exact hexMatch?_mk_hash _ hall rfl
  have hre := fillHex_eval SiteColor.init hm2
  have hlen6 : ¬ ([hexDigitChar (n1 / 16), hexDigitChar (n1 % 16), hexDigitChar (n2 / 16),
      hexDigitChar (n2 % 16), hexDigitChar (n3 / 16), hexDigitChar (n3 % 16)] :
      List Char).length = 3 := by simp
  rw [if_neg hlen6] at hre
  have hp0 : hexPairAt [hexDigitChar (n1 / 16), hexDigitChar (n1 % 16), hexDigitChar (n2 / 16),
      hexDigitChar (n2 % 16), hexDigitChar (n3 / 16), hexDigitChar (n3 % 16)] 0 = n1 := by
    show 16 * hexDigitVal (hexDigitChar (n1 / 16)) + hexDigitVal (hexDigitChar (n1 % 16)) = n1
    exact hexPair_roundtrip b1
  have hp2 : hexPairAt [hexDigitChar (n1 / 16), hexDigitChar (n1 % 16), hexDigitChar (n2 / 16),
      hexDigitChar (n2 % 16), hexDigitChar (n3 / 16), hexDigitChar (n3 % 16)] 2 = n2 := by
    show 16 * hexDigitVal (hexDigitChar (n2 / 16)) + hexDigitVal (hexDigitChar (n2 % 16)) = n2
    exact hexPair_roundtrip b2
  have hp4 : hexPairAt [hexDigitChar (n1 / 16), hexDigitChar (n1 % 16), hexDigitChar (n2 / 16),
      hexDigitChar (n2 % 16), hexDigitChar (n3 / 16), hexDigitChar (n3 % 16)] 4 = n3 := by
    show 16 * hexDigitVal (hexDigitChar (n3 / 16)) + hexDigitVal (hexDigitChar (n3 % 16)) = n3
    exact hexPair_roundtrip b3
  rw [hp0, hp2, hp4] at hre
  refine ⟨[hexDigitChar (n1 / 16), hexDigitChar (n1 % 16), hexDigitChar (n2 / 16),
    hexDigitChar (n2 % 16), hexDigitChar (n3 / 16), hexDigitChar (n3 % 16)], ?_, rfl, hall,
    ?_, ?_, ?_⟩
  · rw [htoHex]
  · rw [hre, hfill]
  · rw [hre, hfill]
  · rw [hre, hfill]

theorem c4_hex_roundtrip_witness :
    (hexMatch? "#1b7").isSome = true ∧
      (SiteColor.init.fillHex ((SiteColor.init.fillHex "#1b7").toHex)).r =
        (SiteColor.init.fillHex "#1b7").r := by
  refine ⟨by decide, ?_⟩
  obtain ⟨t, -, -, -, hr, -, -⟩ := c4_hex_roundtrip SiteColor.init "#1b7" (by decide)
  exact hr

/-- Claim C5: with all three channels set in [0, 255], getLuminance returns
the weighted sum of the sRGB-linearized channels normalized by 255, and the
result lies in [0, 1]. -/
theorem c5_luminance :
    ∀ (c : SiteColor) (r g b : ℤ), c.r = some r → c.g = some g → c.b = some b →
      0 ≤ r → r ≤ 255 → 0 ≤ g → g ≤ 255 → 0 ≤ b → b ≤ 255 →
      c.getLuminance =
        srgbLin ((r : ℝ) / 255) * 0.2126 + srgbLin ((g : ℝ) / 255) * 0.7152 +
          srgbLin ((b : ℝ) / 255) * 0.0722 ∧
      0 ≤ c.getLuminance ∧ c.getLuminance ≤ 1 := by
  intro c r g b hr hg hb hr0 hr1 hg0 hg1 hb0 hb1
  have hwr : chanWf c.r := by rw [hr]; exact ⟨hr0, hr1⟩
  have hwg : chanWf c.g := by rw [hg]; exact ⟨hg0, hg1⟩
  have hwb : chanWf c.b := by rw [hb]; exact ⟨hb0, hb1⟩
  refine ⟨?_, luminanace_mem hwr hwg hwb⟩
  unfold SiteColor.getLuminance luminanace chanR jsChan
  rw [hr, hg, hb]
  simp only [Option.getD]

theorem c5_luminance_witness :
    (SiteColor.mk (some 255) (some 0) (some 0) none).r = some 255 ∧
      0 ≤ (SiteColor.mk (some 255) (some 0) (some 0) none).getLuminance ∧
      (SiteColor.mk (some 255) (some 0) (some 0) none).getLuminance ≤ 1 :=
  ⟨rfl, (c5_luminance (SiteColor.mk (some 255) (some 0) (some 0) none) 255 0 0 rfl rfl rfl
    (by norm_num) (by norm_num) (by norm_num) (by norm_num) (by norm_num) (by norm_num)).2⟩

/-- Claim C6: for colors with channels set in [0, 255], the contrast ratio
is at least 1 and at most 21, symmetric in its arguments, and white against
black gives exactly 21. -/
theorem c6_contrast :
    (∀ a b : SiteColor, chanSet a.r → chanSet a.g → chanSet a.b →
        chanSet b.r → chanSet b.g → chanSet b.b →
      1 ≤ a.compareContrastTo b ∧ a.compareContrastTo b ≤ 21 ∧
        a.compareContrastTo b = b.compareContrastTo a) ∧
    (SiteColor.init.fill "#fff").compareContrastTo (SiteColor.init.fill "#000") = 21 := by
  constructor
  · intro a b ha1 ha2 ha3 hb1 hb2 hb3
    obtain ⟨la0, la1⟩ := luminanace_mem (chanSet_wf ha1) (chanSet_wf ha2) (chanSet_wf ha3)
    obtain ⟨lb0, lb1⟩ := luminanace_mem (chanSet_wf hb1) (chanSet_wf hb2) (chanSet_wf hb3)
    have hx0 : (0.05 : ℝ) ≤ luminanace a.r a.g a.b + 0.05 := by linarith
    have hx1 : luminanace a.r a.g a.b + 0.05 ≤ 1.05 := by linarith
    have hy0 : (0.05 : ℝ) ≤ luminanace b.r b.g b.b + 0.05 := by linarith
    have hy1 : luminanace b.r b.g b.b + 0.05 ≤ 1.05 := by linarith
    rw [contrast_eval a b, contrast_eval b a]
    exact ⟨ratioFix_ge_one (by linarith) (by linarith), ratioFix_le_21 hx0 hx1 hy0 hy1,
      ratioFix_symm (by linarith) (by linarith)⟩
  · rw [fill_fff, fill_000, contrast_eval]
    dsimp only
    rw [luminanace_white, luminanace_black]
    rw [if_neg (by norm_num)]
    norm_num

theorem c6_contrast_witness :
    chanSet (SiteColor.mk (some 10) (some 20) (some 30) none).r ∧
      1 ≤ (SiteColor.mk (some 10) (some 20) (some 30) none).compareContrastTo
        (SiteColor.mk (some 1) (some 2) (some 3) none) :=
  ⟨by decide,
    (c6_contrast.1 (SiteColor.mk (some 10) (some 20) (some 30) none)
      (SiteColor.mk (some 1) (some 2) (some 3) none) (by decide) (by decide) (by decide)
      (by decide) (by decide) (by decide)).1⟩

/-- Claim C7: darken clamps the percent to [0, 1] and stores each channel
times (1 - percent), truncated toward zero and re-clamped to [0, 255];
lighten does the same with factor (1 + percent); in particular
fill("#fa1").lighten(0.2).toString() is "#ffcc14". -/
theorem c7_darken_lighten :
    (∀ (c : SiteColor) (r g b : ℤ) (p : ℚ), c.r = some r → c.g = some g → c.b = some b →
        0 ≤ r → r ≤ 255 → 0 ≤ g → g ≤ 255 → 0 ≤ b → b ≤ 255 →
      (c.darken (JSVal.num (some p))).r =
        some (min (max (ratTrunc ((r : ℚ) * (1 - numberBound p 0 1))) 0) 255) ∧
      (c.darken (JSVal.num (some p))).g =
        some (min (max (ratTrunc ((g : ℚ) * (1 - numberBound p 0 1))) 0) 255) ∧
      (c.darken (JSVal.num (some p))).b =
        some (min (max (ratTrunc ((b : ℚ) * (1 - numberBound p 0 1))) 0) 255) ∧
      (c.lighten (JSVal.num (some p))).r =
        some (min (max (ratTrunc ((r : ℚ) * (1 + numberBound p 0 1))) 0) 255) ∧
      (c.lighten (JSVal.num (some p))).g =
        some (min (max (ratTrunc ((g : ℚ) * (1 + numberBound p 0 1))) 0) 255) ∧
      (c.lighten (JSVal.num (some p))).b =
        some (min (max (ratTrunc ((b : ℚ) * (1 + numberBound p 0 1))) 0) 255)) ∧
    ((SiteColor.init.fill "#fa1").lighten (JSVal.num (some (2/10)))).toString = "#ffcc14" := by
  constructor
  · intro c r g b p hr hg hb _ _ _ _ _ _
    have hjr : jsChanQ c.r = (r : ℚ) := by rw [hr]; rfl
    have hjg : jsChanQ c.g = (g : ℚ) := by rw [hg]; rfl
    have hjb : jsChanQ c.b = (b : ℚ) := by rw [hb]; rfl
    simp only [darken_eval, lighten_eval, hjr, hjg, hjb]
    exact ⟨trivial, trivial, trivial, trivial, trivial, trivial⟩
  · rw [fill_fa1]
    have h1 : (SiteColor.mk (some 255) (some 170) (some 17) (some 1)).lighten
        (JSVal.num (some (2/10))) = SiteColor.mk (some 255) (some 204) (some 20) (some 1) := by
      rw [lighten_eval]
      dsimp only
      have ha : jsChanQ (some 255) * (1 + numberBound (2/10) 0 1) = 306 := by
        unfold jsChanQ jsChan numberBound
        simp only [Option.getD]
        norm_num
      have hbq : jsChanQ (some 170) * (1 + numberBound (2/10) 0 1) = 204 := by
        unfold jsChanQ jsChan numberBound
        simp only [Option.getD]
        norm_num
      have hcq : jsChanQ (some 17) * (1 + numberBound (2/10) 0 1) = 102/5 := by
        unfold jsChanQ jsChan numberBound
        simp only [Option.getD]
        norm_num
      rw [ha, hbq, hcq]
      have t1 : ratTrunc (306 : ℚ) = 306 := by
        unfold ratTrunc
        rw [if_pos (by norm_num)]
        norm_num
      have t2 : ratTrunc (204 : ℚ) = 204 := by
        unfold ratTrunc
        rw [if_pos (by norm_num)]
        norm_num
      have t3 : ratTrunc (102/5 : ℚ) = 20 := by
        unfold ratTrunc
        rw [if_pos (by norm_num)]
        norm_num
      rw [t1, t2, t3]
      decide
    rw [h1]
    unfold SiteColor.toString
    rw [if_pos rfl]
    decide

theorem c7_darken_lighten_witness :
    (SiteColor.mk (some 100) (some 101) (some 102) none).r = some 100 ∧
      ((SiteColor.mk (some 100) (some 101) (some 102) none).darken (JSVal.num (some 0))).r =
        some (min (max (ratTrunc ((100 : ℚ) * (1 - numberBound 0 0 1))) 0) 255) :=
  ⟨rfl, (c7_darken_lighten.1 (SiteColor.mk (some 100) (some 101) (some 102) none) 100 101 102 0
    rfl rfl rfl (by norm_num) (by norm_num) (by norm_num) (by norm_num) (by norm_num)
    (by norm_num)).1⟩

/-- Claim C8: blendWith clamps the percent to [0, 1] and stores each channel
as (other.channel - this.channel) * percent + this.channel truncated toward
zero via the setter, while the opacity of the receiver is untouched. -/
theorem c8_blendWith :
    ∀ (c o : SiteColor) (r g b ro go bo : ℤ) (p : ℚ),
      c.r = some r → c.g = some g → c.b = some b →
      o.r = some ro → o.g = some go → o.b = some bo →
      ((c.blendWith o (JSVal.num (some p))).r =
        some (min (max (ratTrunc (((ro : ℚ) - (r : ℚ)) * numberBound p 0 1 + (r : ℚ))) 0) 255) ∧
       (c.blendWith o (JSVal.num (some p))).g =
        some (min (max (ratTrunc (((go : ℚ) - (g : ℚ)) * numberBound p 0 1 + (g : ℚ))) 0) 255) ∧
       (c.blendWith o (JSVal.num (some p))).b =
        some (min (max (ratTrunc (((bo : ℚ) - (b : ℚ)) * numberBound p 0 1 + (b : ℚ))) 0) 255)) ∧
      (∀ v : JSVal, (c.blendWith o v).opacity = c.opacity) := by
  intro c o r g b ro go bo p hr hg hb hro hgo hbo
  constructor
  · have hjr : jsChanQ c.r = (r : ℚ) := by rw [hr]; rfl
    have hjg : jsChanQ c.g = (g : ℚ) := by rw [hg]; rfl
    have hjb : jsChanQ c.b = (b : ℚ) := by rw [hb]; rfl
    have hjro : jsChanQ o.r = (ro : ℚ) := by rw [hro]; rfl
    have hjgo : jsChanQ o.g = (go : ℚ) := by rw [hgo]; rfl
    have hjbo : jsChanQ o.b = (bo : ℚ) := by rw [hbo]; rfl
    simp only [blendWith_eval, hjr, hjg, hjb, hjro, hjgo, hjbo]
    exact ⟨trivial, trivial, trivial⟩
  · intro v
    exact blendWith_opacity c o v

theorem c8_blendWith_witness :
    (SiteColor.mk (some 10) (some 20) (some 30) (some 1)).r = some 10 ∧
      ((SiteColor.mk (some 10) (some 20) (some 30) (some 1)).blendWith
        (SiteColor.mk (some 110) (some 120) (some 130) none) (JSVal.str "x")).opacity = some 1 :=
  ⟨rfl, (c8_blendWith (SiteColor.mk (some 10) (some 20) (some 30) (some 1))
    (SiteColor.mk (some 110) (some 120) (some 130) none) 10 20 30 110 120 130 0
    rfl rfl rfl rfl rfl rfl).2 (JSVal.str "x")⟩
